import Mathlib

/-!
Verification development for the `ms-rest-nodeauth` credential library.

The definitions below are a shallow embedding of the TypeScript sources:

* `src/lib/credentials/applicationTokenCredentials.ts` — the cache-aware
  token retrieval flow of `ApplicationTokenCredentials` (`getToken`,
  `getTokenFromCache`, `removeInvalidItemsFromCache`);
* `src/unnamed/part_000` — `DeviceTokenCredentials` and its constructor
  defaults;
* `src/unnamed/part_001` — the public login flows (`validateAuthFileContent`,
  `foundManagementEndpointUrl`, `withServicePrincipalSecretWithAuthResponse`,
  `withInteractiveWithAuthResponse`).

Promises and ADAL callbacks are modelled by an explicit settlement type
`Outcome`; the behaviour of the wrapped ADAL library (base-class cache
lookup, `tokenCache.find`, `tokenCache.remove`,
`acquireTokenWithClientCredentials`) is abstracted as an input record
`AdalWorld` because those collaborators live outside this repository.
Side effects on the cache and the network are recorded as an explicit
`Effect` trace so that claims about "no live acquisition happens" are
statements about the trace.
-/

namespace MsRestNodeAuth

/-- An error value as thrown or rejected in JavaScript; the code under study
only ever inspects the `message` field of an error. -/
structure JsError where
  message : String
deriving DecidableEq

/-- The settlement of a JavaScript promise (equivalently, of an ADAL
completion callback): it either resolves with a value or rejects with an
error. -/
inductive Outcome (α : Type) where
  | resolved (value : α)
  | rejected (error : JsError)
deriving DecidableEq

/-- A token response returned by ADAL; the fields the embedded code reads. -/
structure TokenResponse where
  accessToken : String
  tokenType : String
  userId : String
deriving DecidableEq

/-- Entries held by the token cache are opaque records owned by ADAL; only
their presence or absence matters to the embedded code. -/
abbrev CacheEntry := String

/-- Observable cache and network operations performed by the flows, recorded
in order.  `cacheLookup` is the base-class `super.getTokenFromCache` call,
`cacheFind` and `cacheRemove` are `tokenCache.find` / `tokenCache.remove`,
`acquireToken` is `authContext.acquireTokenWithClientCredentials`, and
`listSubscriptions` is the subscription-enumeration collaborator. -/
inductive Effect where
  | cacheLookup
  | cacheFind
  | cacheRemove
  | acquireToken
  | listSubscriptions
deriving DecidableEq

/-- JavaScript `String.prototype.startsWith`, character for character. -/
def jsStartsWith (s pre : String) : Bool :=
  pre.data.isPrefixOf s.data

/-- JavaScript truthiness of an optional string argument: `undefined` and the
empty string are falsy, every other string is truthy. -/
def jsTruthy : Option String → Bool
  | none => false
  | some s => decide (s ≠ "")

/-- Modelled from the spec: `AuthConstants.SDK_INTERNAL_ERROR`, the fixed
sentinel prefix tagging the critical/internal error tier (the
`authConstants` source file itself is not part of this snapshot). -/
def SDK_INTERNAL_ERROR : String := "SDK_INTERNAL_ERROR"

/-- Modelled from the spec: `AuthConstants.AAD_COMMON_TENANT`, the
common-tenant constant used as the default domain. -/
def AAD_COMMON_TENANT : String := "common"

/-- Modelled from the spec: `AuthConstants.DEFAULT_ADAL_CLIENT_ID`, the
default ADAL client id used when no client id is supplied. -/
def DEFAULT_ADAL_CLIENT_ID : String := "04b07795-8ddb-461a-bbee-02f9e1bf7b46"

/-- The ambient behaviour of the wrapped ADAL library and the token cache
during one `getToken` call of an `ApplicationTokenCredentials`:

* `lookup` — the settlement of `super.getTokenFromCache(undefined)`;
* `findResult` — what `tokenCache.find` passes to its callback (an error, or
  the list of matching entries);
* `removeError` — the error, if any, that `tokenCache.remove` passes to its
  completion callback;
* `acquire` — the settlement of `acquireTokenWithClientCredentials`. -/
structure AdalWorld where
  lookup : Outcome TokenResponse
  findResult : Outcome (List CacheEntry)
  removeError : Option JsError
  acquire : Outcome TokenResponse

/-- `ApplicationTokenCredentials.removeInvalidItemsFromCache(query)`.
`tokenCache.find` either errors (rejecting the promise) or yields the list of
entries.  When entries are present, `tokenCache.remove(entries, () =>
resolve(true))` is invoked: its completion callback takes no parameters, so
`w.removeError` is never inspected and the promise resolves regardless.  The
trace records which cache operations ran. -/
def removeInvalidItemsFromCacheRun (w : AdalWorld) : Outcome Bool × List Effect :=
  match w.findResult with
  | .rejected e => (.rejected e, [Effect.cacheFind])
  | .resolved entries =>
    if entries.length > 0 then
      (.resolved true, [Effect.cacheFind, Effect.cacheRemove])
    else
      (.resolved true, [Effect.cacheFind])

/-- The promise chain built inside the `catch` handler of
`ApplicationTokenCredentials.getTokenFromCache`:

`removeInvalidItemsFromCache({_clientId}).then(() => Promise.reject(error)).catch(reason => Promise.reject(new Error(SDK_INTERNAL_ERROR + ...)))`.

The `.then` handler turns a repair success into a rejection carrying the
original cache-miss error (`afterThen`); a repair failure passes through the
`.then` unchanged.  The trailing `.catch` receives every rejection of the
chain so far — the re-signalled original error just as much as a repair
failure — and wraps whichever reason it caught into the critical-tier error,
embedding that reason's message.  The chain therefore always settles with a
critical-wrapped rejection (which the enclosing handler then discards). -/
def repairChainRun (originalError : JsError) (w : AdalWorld) : Outcome Unit × List Effect :=
  let r := removeInvalidItemsFromCacheRun w
  let afterThen : Outcome Unit :=
    match r.1 with
    | .resolved _ => .rejected originalError
    | .rejected reason => .rejected reason
  match afterThen with
  | .resolved v => (.resolved v, r.2)
  | .rejected reason =>
    (.rejected ⟨SDK_INTERNAL_ERROR ++ " : "
        ++ "critical failure while removing expired token for service principal from token cache. "
        ++ reason.message⟩, r.2)

/-- `ApplicationTokenCredentials.getTokenFromCache` (the thin wrapper that
overrides the base implementation).  On a lookup success it resolves with the
token response.  On a lookup failure the `catch` handler starts
`repairChainRun` but does not `return` it, so the handler's result is
`undefined`: the chain's settlement is discarded (only its cache side effects
remain in the trace) and the overriding promise resolves with `undefined`
(modelled as `none`). -/
def getTokenFromCacheRun (w : AdalWorld) : Outcome (Option TokenResponse) × List Effect :=
  match w.lookup with
  | .resolved t => (.resolved (some t), [Effect.cacheLookup])
  | .rejected e =>
    let repair := repairChainRun e w
    (.resolved none, Effect.cacheLookup :: repair.2)

/-- The body of `ApplicationTokenCredentials.getToken` as a function of the
settlement of its internal `this.getTokenFromCache()` call: on success the
cached response is returned; on failure, an error whose message starts with
the `SDK_INTERNAL_ERROR` sentinel is re-rejected unchanged without calling
ADAL, and any other error leads to one
`acquireTokenWithClientCredentials` call whose settlement is returned
verbatim. -/
def getTokenStepRun (cacheResult : Outcome (Option TokenResponse))
    (acquire : Outcome TokenResponse) : Outcome (Option TokenResponse) × List Effect :=
  match cacheResult with
  | .resolved t => (.resolved t, [])
  | .rejected e =>
    if jsStartsWith e.message SDK_INTERNAL_ERROR then
      (.rejected e, [])
    else
      match acquire with
      | .resolved t => (.resolved (some t), [Effect.acquireToken])
      | .rejected e2 => (.rejected e2, [Effect.acquireToken])

/-- `ApplicationTokenCredentials.getToken`: the cache wrapper followed by the
dispatch of `getTokenStepRun`; the trace concatenates the cache operations
with any acquisition call. -/
def getTokenRun (w : AdalWorld) : Outcome (Option TokenResponse) × List Effect :=
  let c := getTokenFromCacheRun w
  let s := getTokenStepRun c.1 w.acquire
  (s.1, c.2 ++ s.2)

/-- A sample token response, used as the delegate's successful answer in the
concrete scenarios below. -/
def demoToken : TokenResponse :=
  { accessToken := "access-token-value", tokenType := "Bearer", userId := "sp-client" }

/-- The error message ADAL uses both for an entry missing from the cache and
for an expired entry (quoted in the source comment of
`getTokenFromCache`). -/
def entryNotFoundError : JsError := ⟨"Entry not found in cache."⟩

/-- The critical-tier error the dropped repair chain settles with when the
plain lookup failed with `entryNotFoundError` and the repair itself ran to
completion: the trailing `.catch` wraps the re-signalled original miss error,
embedding its message. -/
def wrappedMissError : JsError :=
  ⟨SDK_INTERNAL_ERROR ++ " : "
    ++ "critical failure while removing expired token for service principal from token cache. "
    ++ entryNotFoundError.message⟩

/-- A world with an empty token cache: the plain lookup rejects with the
ordinary miss error, `tokenCache.find` yields no entries, and the live
delegate would succeed. -/
def emptyCacheWorld : AdalWorld :=
  { lookup := .rejected entryNotFoundError
    findResult := .resolved []
    removeError := none
    acquire := .resolved demoToken }

/-- A world where the lookup misses, the cache holds one stale entry for the
client identity, and removing it fails; the live delegate would succeed. -/
def staleEntryWorld : AdalWorld :=
  { lookup := .rejected entryNotFoundError
    findResult := .resolved ["stale-entry-for-sp-client"]
    removeError := some ⟨"removal failed: disk error"⟩
    acquire := .resolved demoToken }

/-- A world with a cache hit. -/
def cacheHitWorld : AdalWorld :=
  { lookup := .resolved demoToken
    findResult := .resolved []
    removeError := none
    acquire := .rejected ⟨"live acquisition must not run"⟩ }

/-- A critical-tier error of the shape produced by the repair chain. -/
def criticalCacheError : JsError :=
  ⟨SDK_INTERNAL_ERROR ++ " : "
    ++ "critical failure while removing expired token for service principal from token cache. "
    ++ "find failed"⟩

/-- The JSON auth-file descriptor as read by `withAuthFileWithAuthResponse`:
every field the validator inspects, as an optional string (`none` models an
absent key, mirroring JavaScript `undefined`). -/
structure AuthFileCreds where
  clientId : Option String
  clientSecret : Option String
  subscriptionId : Option String
  tenantId : Option String
  activeDirectoryEndpointUrl : Option String
  resourceManagerEndpointUrl : Option String
  activeDirectoryGraphResourceId : Option String
  sqlManagementEndpointUrl : Option String
deriving DecidableEq

/-- The message template of `validateAuthFileContent` for a missing field:
the field name in double quotes, followed by the file path. -/
def missingFieldMsg (field filePath : String) : String :=
  "\"" ++ field ++ "\" is missing from the auth file: " ++ filePath ++ "."

/-- `validateAuthFileContent(credsObj, filePath)`: checks the descriptor and
file path, then each field in the fixed source order, throwing on the first
falsy one. -/
def validateAuthFileContent (credsObj : Option AuthFileCreds) (filePath : String) :
    Except JsError Unit :=
  match credsObj with
  | none => .error ⟨"Please provide a credsObj to validate."⟩
  | some c =>
    if filePath = "" then .error ⟨"Please provide a filePath."⟩
    else if jsTruthy c.clientId = false then
      .error ⟨missingFieldMsg "clientId" filePath⟩
    else if jsTruthy c.clientSecret = false then
      .error ⟨missingFieldMsg "clientSecret" filePath⟩
    else if jsTruthy c.subscriptionId = false then
      .error ⟨missingFieldMsg "subscriptionId" filePath⟩
    else if jsTruthy c.tenantId = false then
      .error ⟨missingFieldMsg "tenantId" filePath⟩
    else if jsTruthy c.activeDirectoryEndpointUrl = false then
      .error ⟨missingFieldMsg "activeDirectoryEndpointUrl" filePath⟩
    else if jsTruthy c.resourceManagerEndpointUrl = false then
      .error ⟨missingFieldMsg "resourceManagerEndpointUrl" filePath⟩
    else if jsTruthy c.activeDirectoryGraphResourceId = false then
      .error ⟨missingFieldMsg "activeDirectoryGraphResourceId" filePath⟩
    else if jsTruthy c.sqlManagementEndpointUrl = false then
      .error ⟨missingFieldMsg "sqlManagementEndpointUrl" filePath⟩
    else .ok ()

/-- The seven required auth-file fields of the claim, in the validator's
check order (the validator additionally checks `sqlManagementEndpointUrl`
after these seven). -/
def requiredFieldNames : List String :=
  ["clientId", "clientSecret", "subscriptionId", "tenantId",
   "activeDirectoryEndpointUrl", "resourceManagerEndpointUrl",
   "activeDirectoryGraphResourceId"]

/-- Name of the i-th required field in check order. -/
def requiredFieldName (i : Fin 7) : String :=
  requiredFieldNames.get i

/-- Projection of the i-th required field out of a descriptor, in check
order. -/
def requiredField (i : Fin 7) (c : AuthFileCreds) : Option String :=
  match i with
  | ⟨0, _⟩ => c.clientId
  | ⟨1, _⟩ => c.clientSecret
  | ⟨2, _⟩ => c.subscriptionId
  | ⟨3, _⟩ => c.tenantId
  | ⟨4, _⟩ => c.activeDirectoryEndpointUrl
  | ⟨5, _⟩ => c.resourceManagerEndpointUrl
  | ⟨6, _⟩ => c.activeDirectoryGraphResourceId
  | ⟨n + 7, h⟩ => absurd h (by omega)

/-- A validation error message names a field when it begins with that field
name in double quotes — the shape every message of `missingFieldMsg` has. -/
def namesField (msg field : String) : Bool :=
  ("\"" ++ field ++ "\"").data.isPrefixOf msg.data

/-- JavaScript `toLowerCase` as applied to the endpoint URLs: character-wise
basic-latin lowercasing. -/
def jsToLower (s : String) : String :=
  ⟨s.data.map Char.toLower⟩

/-- The ternary `url.endsWith('/') ? url.slice(0, -1) : url` used by
`foundManagementEndpointUrl`: removes one trailing slash when present. -/
def stripTrailingSlash (s : String) : String :=
  if s.data.getLast? = some '/' then ⟨s.data.dropLast⟩ else s

/-- `foundManagementEndpointUrl(authFileUrl, envUrl)`: throws on empty
inputs, then strips at most one trailing slash from each URL and compares the
results lowercased. -/
def foundManagementEndpointUrl (authFileUrl envUrl : String) : Except JsError Bool :=
  if authFileUrl = "" then
    .error ⟨"authFileUrl cannot be null or undefined and must be of type string."⟩
  else if envUrl = "" then
    .error ⟨"envUrl cannot be null or undefined and must be of type string."⟩
  else
    let a := stripTrailingSlash authFileUrl
    let e := stripTrailingSlash envUrl
    .ok (decide (jsToLower a = jsToLower e))

/-- The relation stated by the specification sentence for C7: the two URLs
are equal after lowercasing and removing at most one trailing slash from
each. -/
def urlsMatchSpec (u v : String) : Prop :=
  stripTrailingSlash (jsToLower u) = stripTrailingSlash (jsToLower v)

instance urlsMatchSpecDecidable (u v : String) : Decidable (urlsMatchSpec u v) :=
  inferInstanceAs
    (Decidable (stripTrailingSlash (jsToLower u) = stripTrailingSlash (jsToLower v)))

/-- Modelled from the spec: the `TokenCredentialsBase` constructor (its
source file is not part of this snapshot).  Per the spec's error-handling
design, missing required constructor arguments are fatal synchronous
validation errors thrown before any I/O; otherwise the arguments are simply
stored on the credential. -/
def mkTokenCredentialsBase (clientId domain : String) : Except JsError Unit :=
  if clientId = "" then .error ⟨"clientId must be a non empty string."⟩
  else if domain = "" then .error ⟨"domain must be a non empty string."⟩
  else .ok ()

/-- A constructed `ApplicationTokenCredentials`: the fields stored by the
constructor chain. -/
structure ApplicationTokenCredentials where
  clientId : String
  domain : String
  secret : String
  tokenAudience : Option String
deriving DecidableEq

/-- The `ApplicationTokenCredentials` constructor: it rejects an empty
secret before calling the base constructor (`super`); no cache or network
operation is involved. -/
def mkApplicationTokenCredentials (clientId domain secret : String)
    (tokenAudience : Option String) : Except JsError ApplicationTokenCredentials :=
  if secret = "" then .error ⟨"secret must be a non empty string."⟩
  else
    (mkTokenCredentialsBase clientId domain).map fun _ =>
      { clientId := clientId, domain := domain, secret := secret,
        tokenAudience := tokenAudience }

/-- The value resolved by the `WithAuthResponse` flows: the credentials and
the associated subscriptions. -/
structure AuthResponse where
  credentials : ApplicationTokenCredentials
  subscriptions : List String
deriving DecidableEq

/-- The collaborators of one run of the service-principal flow: the ADAL
world seen by the credential's `getToken` call, and the settlement of
`getSubscriptionsFromTenants`. -/
structure SPWorld where
  adal : AdalWorld
  subscriptions : Outcome (List String)

/-- `withServicePrincipalSecretWithAuthResponse(clientId, secret, domain,
options)`: constructs the credential (a synchronous validation error rejects
the returned promise before anything else runs, hence the empty effect
trace), awaits `getToken`, then — unless the token audience is "graph" —
lists subscriptions, resolving with credentials and subscriptions. -/
def withServicePrincipalSecretWithAuthResponseRun (clientId secret domain : String)
    (tokenAudience : Option String) (w : SPWorld) : Outcome AuthResponse × List Effect :=
  match mkApplicationTokenCredentials clientId domain secret tokenAudience with
  | .error e => (.rejected e, [])
  | .ok creds =>
    let g := getTokenRun w.adal
    match g.1 with
    | .rejected e => (.rejected e, g.2)
    | .resolved _ =>
      if tokenAudience = some "graph" then
        (.resolved { credentials := creds, subscriptions := [] }, g.2)
      else
        match w.subscriptions with
        | .rejected e => (.rejected e, g.2 ++ [Effect.listSubscriptions])
        | .resolved subs =>
          (.resolved { credentials := creds, subscriptions := subs },
            g.2 ++ [Effect.listSubscriptions])

/-- A constructed `DeviceTokenCredentials`: the fields stored by the
constructor chain that the claims inspect. -/
structure DeviceTokenCredentials where
  clientId : String
  domain : String
  username : String
  tokenAudience : Option String
deriving DecidableEq

/-- The `DeviceTokenCredentials` constructor: an absent (undefined or empty)
username, domain or clientId is replaced by its default — in the source
order: username, then domain, then clientId — before the base constructor
stores the values. -/
def mkDeviceTokenCredentials (clientId domain username : Option String)
    (tokenAudience : Option String) : Except JsError DeviceTokenCredentials :=
  let username := if jsTruthy username = false then "user@example.com" else username.getD ""
  let domain := if jsTruthy domain = false then AAD_COMMON_TENANT else domain.getD ""
  let clientId := if jsTruthy clientId = false then DEFAULT_ADAL_CLIENT_ID else clientId.getD ""
  (mkTokenCredentialsBase clientId domain).map fun _ =>
    { clientId := clientId, domain := domain, username := username,
      tokenAudience := tokenAudience }

/-- The `interactiveOptions` object of `withInteractiveWithAuthResponse`,
restricted to the properties the device-code success callback touches.
JavaScript property names are case sensitive, so `username` and `userName`
are two distinct properties of the record. -/
structure InteractiveOptions where
  clientId : String
  domain : String
  tokenAudience : Option String
  username : Option String
  userName : Option String
  authorizationScheme : Option String
deriving DecidableEq

/-- The `interactiveOptions` record as populated before device-code polling
starts: `username`, `userName` and `authorizationScheme` are all still
absent.  Properties irrelevant to the claims (environment, token cache,
language, user-code logger, auth context) are omitted from the embedding. -/
def initialInteractiveOptions (clientId domain : String) (tokenAudience : Option String) :
    InteractiveOptions :=
  { clientId := clientId, domain := domain, tokenAudience := tokenAudience,
    username := none, userName := none, authorizationScheme := none }

/-- The success path of the `acquireTokenWithDeviceCode` callback in
`withInteractiveWithAuthResponse`: it assigns
`interactiveOptions.username = tokenResponse.userId` and
`interactiveOptions.authorizationScheme = tokenResponse.tokenType`, then
constructs `new DeviceTokenCredentials(interactiveOptions.clientId,
interactiveOptions.domain, interactiveOptions.userName, ...)`, reading the
`userName` property (capital N), which no statement ever assigned. -/
def deviceCodeSuccessStep (opts : InteractiveOptions) (tokenResponse : TokenResponse) :
    Except JsError DeviceTokenCredentials :=
  let opts := { opts with
    username := some tokenResponse.userId,
    authorizationScheme := some tokenResponse.tokenType }
  mkDeviceTokenCredentials (some opts.clientId) (some opts.domain) opts.userName
    opts.tokenAudience

/-- The token response delivered by the device-code flow in the concrete C9
scenario. -/
def deviceFlowToken : TokenResponse :=
  { accessToken := "device-access-token", tokenType := "Bearer",
    userId := "alice@contoso.example" }

/-- A descriptor missing exactly its `clientSecret`, used as the concrete
witness input for the validation claim. -/
def witnessAuthCreds : AuthFileCreds :=
  { clientId := some "client-id"
    clientSecret := none
    subscriptionId := some "sub-id"
    tenantId := some "tenant-id"
    activeDirectoryEndpointUrl := some "https://login.microsoftonline.com"
    resourceManagerEndpointUrl := some "https://management.azure.com/"
    activeDirectoryGraphResourceId := some "https://graph.windows.net/"
    sqlManagementEndpointUrl := some "https://management.core.windows.net:8443/" }

end MsRestNodeAuth

namespace MsRestNodeAuth

/-- C1: if the internal cache lookup (`this.getTokenFromCache()`) of
`ApplicationTokenCredentials.getToken` fails with an error whose message
starts with the `SDK_INTERNAL_ERROR` sentinel prefix, `getToken` rejects with
that error unchanged and performs no live acquisition call: the effect trace
of the dispatch is empty, so `acquireTokenWithClientCredentials` is never
invoked. -/
theorem getToken_critical_error_short_circuits
    (e : JsError) (acquire : Outcome TokenResponse)
    (h : jsStartsWith e.message SDK_INTERNAL_ERROR = true) :
    getTokenStepRun (Outcome.rejected e) acquire
      = (Outcome.rejected e, ([] : List Effect)) := by
  simp [getTokenStepRun, h]

/-- Witness for C1 at a concrete critical-tier error. -/
theorem getToken_critical_error_short_circuits_witness :
    jsStartsWith criticalCacheError.message SDK_INTERNAL_ERROR = true
    ∧ getTokenStepRun (Outcome.rejected criticalCacheError) (Outcome.resolved demoToken)
        = (Outcome.rejected criticalCacheError, ([] : List Effect)) :=
  ⟨by decide,
    getToken_critical_error_short_circuits criticalCacheError
      (Outcome.resolved demoToken) (by decide)⟩

/-- C2 (code bug): with an empty cache the lookup misses, but `getToken`
resolves with `undefined` after only the lookup and the repair's
`tokenCache.find`: the trace contains no `acquireToken` effect, so the live
delegate — which would have succeeded with `demoToken` — is never invoked and
its response is not returned.  The `catch` handler of `getTokenFromCache`
drops the repair/reject chain, so the miss never reaches `getToken`'s
fallback. -/
theorem getToken_empty_cache_skips_acquisition :
    getTokenRun emptyCacheWorld
      = (Outcome.resolved none, [Effect.cacheLookup, Effect.cacheFind])
    ∧ (getTokenRun emptyCacheWorld).2.count Effect.acquireToken = 0 := by
  constructor
  · rfl
  · rfl

/-- C3 (code bug): when the lookup misses and `tokenCache.find` returns zero
entries, the repair sub-procedure does resolve as a no-op (first conjunct),
but the rest of the claim fails twice.  The inner chain does not carry the
original miss error: its trailing `.catch` also intercepts the `.then`
handler's re-signalled rejection and wraps it into the critical-tier error
(second conjunct).  And even that settlement is dropped by the missing
`return`: `getTokenFromCache` resolves with `undefined` instead of rejecting,
so `getToken` resolves with `undefined` and never attempts live acquisition
(third conjunct). -/
theorem getToken_cache_miss_no_entries_behaviour :
    removeInvalidItemsFromCacheRun emptyCacheWorld
      = (Outcome.resolved true, [Effect.cacheFind])
    ∧ repairChainRun entryNotFoundError emptyCacheWorld
        = (Outcome.rejected wrappedMissError, [Effect.cacheFind])
    ∧ getTokenRun emptyCacheWorld
        = (Outcome.resolved none, [Effect.cacheLookup, Effect.cacheFind]) := by
  exact ⟨rfl, rfl, rfl⟩

/-- C4 (code bug): when the lookup misses, the cache holds a matching entry
and removing it fails, the removal failure is invisible —
`removeInvalidItemsFromCache` resolves `true` even though `removeError` is
set, because the `remove` completion callback `() => resolve(true)` takes no
error parameter (second conjunct).  The repair chain therefore settles with
the critical error wrapping the original miss error, whose message never
mentions the removal failure (third conjunct), and even that settlement is
dropped: `getToken` resolves with `undefined` (fourth conjunct).  No
critical-tier error carrying the sentinel prefix and the removal failure's
message is ever observable, and no live acquisition occurs. -/
theorem getToken_removal_failure_invisible :
    staleEntryWorld.removeError = some ⟨"removal failed: disk error"⟩
    ∧ removeInvalidItemsFromCacheRun staleEntryWorld
        = (Outcome.resolved true, [Effect.cacheFind, Effect.cacheRemove])
    ∧ repairChainRun entryNotFoundError staleEntryWorld
        = (Outcome.rejected wrappedMissError, [Effect.cacheFind, Effect.cacheRemove])
    ∧ getTokenRun staleEntryWorld
        = (Outcome.resolved none, [Effect.cacheLookup, Effect.cacheFind, Effect.cacheRemove]) := by
  exact ⟨rfl, rfl, rfl, rfl⟩

/-- C5: on a cache hit `getToken` resolves with the cached token response
unchanged, and the effect trace is the single base-class lookup — in
particular `acquireTokenWithClientCredentials` is never invoked. -/
theorem getToken_cache_hit_returns_cached
    (w : AdalWorld) (t : TokenResponse) (h : w.lookup = Outcome.resolved t) :
    getTokenRun w = (Outcome.resolved (some t), [Effect.cacheLookup]) := by
  unfold getTokenRun getTokenFromCacheRun
  rw [h]
  rfl

/-- Witness for C5 at a concrete cache hit. -/
theorem getToken_cache_hit_returns_cached_witness :
    cacheHitWorld.lookup = Outcome.resolved demoToken
    ∧ getTokenRun cacheHitWorld
        = (Outcome.resolved (some demoToken), [Effect.cacheLookup]) :=
  ⟨rfl, getToken_cache_hit_returns_cached cacheHitWorld demoToken rfl⟩

/-- Whether a list is a prefix of an append only depends on the left part of
the append when the candidate is no longer than that part. -/
theorem isPrefixOf_append_of_le (q p r : List Char) (h : q.length ≤ p.length) :
    q.isPrefixOf (p ++ r) = q.isPrefixOf p := by
  induction q generalizing p with
  | nil => simp [List.isPrefixOf]
  | cons a as ih =>
    cases p with
    | nil => simp at h
    | cons b bs =>
      simp only [List.cons_append]
      show (a == b && as.isPrefixOf (bs ++ r)) = (a == b && as.isPrefixOf bs)
      rw [ih bs (by simp only [List.length_cons] at h; omega)]

/-- The character data of a missing-field message splits into the fixed head
naming the field and the trailing file path. -/
theorem missingFieldMsg_data (n fp : String) :
    (missingFieldMsg n fp).data
      = ("\"" ++ n ++ "\" is missing from the auth file: ").data
          ++ (fp.data ++ ".".data) := by
  simp [missingFieldMsg, String.data_append, List.append_assoc]

/-- Every quoted required-field name is shorter than the fixed head of every
missing-field message. -/
theorem quotedName_length_le : ∀ i j : Fin 7,
    ("\"" ++ requiredFieldName j ++ "\"").data.length
      ≤ ("\"" ++ requiredFieldName i ++ "\" is missing from the auth file: ").data.length := by
  decide

/-- Whether a missing-field message names a required field is independent of
the file path: it is decided by the fixed head of the message. -/
theorem namesField_head_eq (i j : Fin 7) (fp : String) :
    namesField (missingFieldMsg (requiredFieldName i) fp) (requiredFieldName j)
      = ("\"" ++ requiredFieldName j ++ "\"").data.isPrefixOf
          ("\"" ++ requiredFieldName i ++ "\" is missing from the auth file: ").data := by
  unfold namesField
  rw [missingFieldMsg_data]
  exact isPrefixOf_append_of_le _ _ _ (quotedName_length_le i j)

/-- The message for required field `i` names required field `j` exactly when
`j = i`, whatever the file path. -/
theorem namesField_missing_iff (i j : Fin 7) (fp : String) :
    (namesField (missingFieldMsg (requiredFieldName i) fp) (requiredFieldName j) = true
      ↔ j = i) := by
  rw [namesField_head_eq i j fp]
  exact (by decide : ∀ i j : Fin 7,
    (("\"" ++ requiredFieldName j ++ "\"").data.isPrefixOf
        ("\"" ++ requiredFieldName i ++ "\" is missing from the auth file: ").data = true
      ↔ j = i)) i j

/-- C6: for each of the seven required auth-file fields, if every field
checked before field `i` is present and field `i` is missing (falsy), the
validator fails fast with exactly the message for field `i` — in particular a
descriptor missing only field `i` fails naming field `i` — and that message
names field `i` and no other required field. -/
theorem validateAuthFile_first_missing_field_named
    (c : AuthFileCreds) (i : Fin 7) (fp : String)
    (hfp : fp ≠ "")
    (hbefore : ∀ j : Fin 7, j < i → jsTruthy (requiredField j c) = true)
    (hi : jsTruthy (requiredField i c) = false) :
    validateAuthFileContent (some c) fp
      = Except.error ⟨missingFieldMsg (requiredFieldName i) fp⟩
    ∧ ∀ j : Fin 7,
        (namesField (missingFieldMsg (requiredFieldName i) fp) (requiredFieldName j) = true
          ↔ j = i) := by
  refine ⟨?_, fun j => namesField_missing_iff i j fp⟩
  fin_cases i
  · have h0 : jsTruthy c.clientId = false := hi
    simp [validateAuthFileContent, hfp, h0, requiredFieldName, requiredFieldNames]
  · have h0 : jsTruthy c.clientId = true := hbefore 0 (by decide)
    have h1 : jsTruthy c.clientSecret = false := hi
    simp [validateAuthFileContent, hfp, h0, h1, requiredFieldName, requiredFieldNames]
  · have h0 : jsTruthy c.clientId = true := hbefore 0 (by decide)
    have h1 : jsTruthy c.clientSecret = true := hbefore 1 (by decide)
    have h2 : jsTruthy c.subscriptionId = false := hi
    simp [validateAuthFileContent, hfp, h0, h1, h2, requiredFieldName, requiredFieldNames]
  · have h0 : jsTruthy c.clientId = true := hbefore 0 (by decide)
    have h1 : jsTruthy c.clientSecret = true := hbefore 1 (by decide)
    have h2 : jsTruthy c.subscriptionId = true := hbefore 2 (by decide)
    have h3 : jsTruthy c.tenantId = false := hi
    simp [validateAuthFileContent, hfp, h0, h1, h2, h3, requiredFieldName, requiredFieldNames]
    rfl
  · have h0 : jsTruthy c.clientId = true := hbefore 0 (by decide)
    have h1 : jsTruthy c.clientSecret = true := hbefore 1 (by decide)
    have h2 : jsTruthy c.subscriptionId = true := hbefore 2 (by decide)
    have h3 : jsTruthy c.tenantId = true := hbefore 3 (by decide)
    have h4 : jsTruthy c.activeDirectoryEndpointUrl = false := hi
    simp [validateAuthFileContent, hfp, h0, h1, h2, h3, h4, requiredFieldName, requiredFieldNames]
    rfl
  · have h0 : jsTruthy c.clientId = true := hbefore 0 (by decide)
    have h1 : jsTruthy c.clientSecret = true := hbefore 1 (by decide)
    have h2 : jsTruthy c.subscriptionId = true := hbefore 2 (by decide)
    have h3 : jsTruthy c.tenantId = true := hbefore 3 (by decide)
    have h4 : jsTruthy c.activeDirectoryEndpointUrl = true := hbefore 4 (by decide)
    have h5 : jsTruthy c.resourceManagerEndpointUrl = false := hi
    simp [validateAuthFileContent, hfp, h0, h1, h2, h3, h4, h5, requiredFieldName,
      requiredFieldNames]
    rfl
  · have h0 : jsTruthy c.clientId = true := hbefore 0 (by decide)
    have h1 : jsTruthy c.clientSecret = true := hbefore 1 (by decide)
    have h2 : jsTruthy c.subscriptionId = true := hbefore 2 (by decide)
    have h3 : jsTruthy c.tenantId = true := hbefore 3 (by decide)
    have h4 : jsTruthy c.activeDirectoryEndpointUrl = true := hbefore 4 (by decide)
    have h5 : jsTruthy c.resourceManagerEndpointUrl = true := hbefore 5 (by decide)
    have h6 : jsTruthy c.activeDirectoryGraphResourceId = false := hi
    simp [validateAuthFileContent, hfp, h0, h1, h2, h3, h4, h5, h6, requiredFieldName,
      requiredFieldNames]
    rfl

/-- Evaluation of `Char.ofNat` on a valid code point. -/
theorem char_toNat_ofNat (n : Nat) (h : n.isValidChar) : (Char.ofNat n).toNat = n := by
  rw [Char.ofNat, dif_pos h]
  rfl

/-- Basic-latin lowercasing maps no character other than the slash itself to
a slash. -/
theorem toLower_eq_slash (c : Char) : Char.toLower c = '/' ↔ c = '/' := by
  constructor
  · intro h
    simp only [Char.toLower] at h
    by_cases hc : c.toNat ≥ 65 ∧ c.toNat ≤ 90
    · rw [if_pos hc] at h
      exfalso
      have h2 := congrArg Char.toNat h
      rw [char_toNat_ofNat (c.toNat + 32) (Or.inl (by omega))] at h2
      have h3 : ('/' : Char).toNat = 47 := by decide
      omega
    · rwa [if_neg hc] at h
  · intro h
    subst h
    decide

/-- Lowercasing commutes with stripping one trailing slash. -/
theorem jsToLower_stripTrailingSlash (s : String) :
    jsToLower (stripTrailingSlash s) = stripTrailingSlash (jsToLower s) := by
  cases s with
  | mk l =>
    unfold jsToLower stripTrailingSlash
    simp only [List.getLast?_map]
    cases h : l.getLast? with
    | none => simp [h]
    | some c =>
      by_cases hc : c = '/'
      · subst hc
        simp [h, List.map_dropLast]
      · have hlow : Char.toLower c ≠ '/' := fun hh => hc ((toLower_eq_slash c).1 hh)
        simp [h, hc, hlow]

/-- C7: for every pair of non-empty URL strings, `foundManagementEndpointUrl`
returns `true` exactly when the two strings are equal after lowercasing and
removing at most one trailing slash from each; in particular it returns
`true` on the pair "HTTPS://Foo.com/" and "https://foo.com". -/
theorem foundManagementEndpointUrl_matches_spec :
    (∀ u v : String, u ≠ "" → v ≠ "" →
      foundManagementEndpointUrl u v = Except.ok (decide (urlsMatchSpec u v)))
    ∧ foundManagementEndpointUrl "HTTPS://Foo.com/" "https://foo.com" = Except.ok true := by
  constructor
  · intro u v hu hv
    unfold foundManagementEndpointUrl
    rw [if_neg hu, if_neg hv]
    show Except.ok (decide (jsToLower (stripTrailingSlash u) = jsToLower (stripTrailingSlash v)))
        = Except.ok (decide (urlsMatchSpec u v))
    congr 1
    rw [decide_eq_decide, jsToLower_stripTrailingSlash, jsToLower_stripTrailingSlash]
    exact Iff.rfl
  · rfl

/-- Witness for C7 at concrete non-empty URLs. -/
theorem foundManagementEndpointUrl_matches_spec_witness :
    ("Https://Contoso.example/" ≠ "") ∧ ("https://contoso.example" ≠ "")
    ∧ foundManagementEndpointUrl "Https://Contoso.example/" "https://contoso.example"
        = Except.ok (decide (urlsMatchSpec "Https://Contoso.example/" "https://contoso.example")) :=
  ⟨by decide, by decide,
    foundManagementEndpointUrl_matches_spec.1 "Https://Contoso.example/"
      "https://contoso.example" (by decide) (by decide)⟩

/-- Witness for C6: a descriptor missing only `clientSecret` fails naming
exactly `clientSecret`. -/
theorem validateAuthFile_first_missing_field_named_witness :
    ("/tmp/azureauth.json" ≠ "")
    ∧ (∀ j : Fin 7, j < (1 : Fin 7) → jsTruthy (requiredField j witnessAuthCreds) = true)
    ∧ jsTruthy (requiredField 1 witnessAuthCreds) = false
    ∧ (validateAuthFileContent (some witnessAuthCreds) "/tmp/azureauth.json"
        = Except.error ⟨missingFieldMsg (requiredFieldName 1) "/tmp/azureauth.json"⟩
      ∧ ∀ j : Fin 7,
          (namesField (missingFieldMsg (requiredFieldName 1) "/tmp/azureauth.json")
              (requiredFieldName j) = true
            ↔ j = 1)) :=
  ⟨by decide, by decide, by decide,
    validateAuthFile_first_missing_field_named witnessAuthCreds 1 "/tmp/azureauth.json"
      (by decide) (by decide) (by decide)⟩

/-- C8: constructing an `ApplicationTokenCredentials` — the entry of the
service-principal flow — with an empty-string secret throws the validation
error "secret must be a non empty string." synchronously, and the whole
service-principal flow rejects with that error with an empty effect trace:
no cache or network operation is ever attempted. -/
theorem servicePrincipal_empty_secret_fails_synchronously
    (clientId domain : String) (tokenAudience : Option String) (w : SPWorld) :
    mkApplicationTokenCredentials clientId domain "" tokenAudience
      = Except.error ⟨"secret must be a non empty string."⟩
    ∧ withServicePrincipalSecretWithAuthResponseRun clientId "" domain tokenAudience w
        = (Outcome.rejected ⟨"secret must be a non empty string."⟩, ([] : List Effect)) :=
  ⟨rfl, rfl⟩

/-- C9 (code bug): in the interactive device-code flow's success callback the
constructed credential carries the constructor default "user@example.com" as
its username, not the token response's `userId`: the callback assigns the
`username` property, but the constructor call reads the never-assigned
`userName` property, which is still absent after the assignment (second
conjunct). -/
theorem interactive_username_not_from_token_response :
    deviceCodeSuccessStep
        (initialInteractiveOptions DEFAULT_ADAL_CLIENT_ID AAD_COMMON_TENANT none)
        deviceFlowToken
      = Except.ok { clientId := DEFAULT_ADAL_CLIENT_ID, domain := AAD_COMMON_TENANT,
                    username := "user@example.com", tokenAudience := none }
    ∧ ({ initialInteractiveOptions DEFAULT_ADAL_CLIENT_ID AAD_COMMON_TENANT none with
          username := some deviceFlowToken.userId,
          authorizationScheme := some deviceFlowToken.tokenType }).userName = none
    ∧ "user@example.com" ≠ deviceFlowToken.userId :=
  ⟨rfl, rfl, by decide⟩

/-- C10: with clientId, domain and username all absent (undefined or empty),
the `DeviceTokenCredentials` constructor does not throw; it stores the
default username "user@example.com", the common-tenant domain and the default
ADAL client id. -/
theorem deviceTokenCredentials_absent_args_defaults
    (clientId domain username : Option String) (tokenAudience : Option String)
    (hc : jsTruthy clientId = false) (hd : jsTruthy domain = false)
    (hu : jsTruthy username = false) :
    mkDeviceTokenCredentials clientId domain username tokenAudience
      = Except.ok { clientId := DEFAULT_ADAL_CLIENT_ID, domain := AAD_COMMON_TENANT,
                    username := "user@example.com", tokenAudience := tokenAudience } := by
  unfold mkDeviceTokenCredentials
  rw [if_pos hu, if_pos hd, if_pos hc]
  rfl

/-- Witness for C10, covering both forms of absence (undefined and the empty
string). -/
theorem deviceTokenCredentials_absent_args_defaults_witness :
    jsTruthy (none : Option String) = false
    ∧ jsTruthy (some "") = false
    ∧ mkDeviceTokenCredentials none (some "") none none
        = Except.ok { clientId := DEFAULT_ADAL_CLIENT_ID, domain := AAD_COMMON_TENANT,
                      username := "user@example.com", tokenAudience := none } :=
  ⟨rfl, by decide,
    deviceTokenCredentials_absent_args_defaults none (some "") none none rfl (by decide) rfl⟩

end MsRestNodeAuth
